import Mathlib

set_option maxRecDepth 8000
set_option linter.dupNamespace false

/-!
Shallow embedding of `src/runtime/metrics/description.go` (Go package
`metrics`): the `Description` record, the static catalog `allDesc`, and the
accessor `All`.  Go slice semantics relevant to the accessor are modelled
explicitly: a slice header is a reference to a backing array held in a small
store, and `All` returns the package-level slice header itself, without
copying the backing array.
-/

namespace Metrics

/-- Modelled from the spec: `ValueKind` is declared in a file of the same Go
package that is not part of the sources given (`value.go`); the spec describes
it as a closed enumeration of value shapes defined by the external
value-producing collaborator.  Only the variants used by the catalog matter
here: an unsigned-integer counter kind and a floating-point histogram kind,
plus the other variants the collaborator declares. -/
inductive ValueKind where
  | KindBad
  | KindUint64
  | KindFloat64
  | KindFloat64Histogram
deriving DecidableEq, BEq

/-- The `Description` struct of `description.go`: name (with unit), English
description, value kind, and cumulativity flag.  Fields omitted in a Go

composite literal take the zero value, so `Cumulative` defaults to `false`. -/
structure Description where
  Name : String
  Description : String
  Kind : ValueKind
  Cumulative : Bool := false
deriving DecidableEq, BEq

/-- The package-level catalog `allDesc` of `description.go`, transcribed
entry by entry (Go compile-time string concatenations joined). -/
def allDesc : List Description := [
  { Name := "/gc/cycles/automatic:gc-cycles",
    Description := "Count of completed GC cycles generated by the Go runtime.",
    Kind := ValueKind.KindUint64,
    Cumulative := true },
  { Name := "/gc/cycles/forced:gc-cycles",
    Description := "Count of completed GC cycles forced by the application.",
    Kind := ValueKind.KindUint64,
    Cumulative := true },
  { Name := "/gc/cycles/total:gc-cycles",
    Description := "Count of all completed GC cycles.",
    Kind := ValueKind.KindUint64,
    Cumulative := true },
  { Name := "/gc/heap/allocs-by-size:bytes",
    Description := "Distribution of heap allocations by approximate size. Note that this does not include tiny objects as defined by /gc/heap/tiny/allocs:objects, only tiny blocks.",
    Kind := ValueKind.KindFloat64Histogram,
    Cumulative := true },
  { Name := "/gc/heap/allocs:bytes",
    Description := "Cumulative sum of memory allocated to the heap by the application.",
    Kind := ValueKind.KindUint64,
    Cumulative := true },
  { Name := "/gc/heap/allocs:objects",
    Description := "Cumulative count of heap allocations triggered by the application. Note that this does not include tiny objects as defined by /gc/heap/tiny/allocs:objects, only tiny blocks.",
    Kind := ValueKind.KindUint64,
    Cumulative := true },
  { Name := "/gc/heap/frees-by-size:bytes",
    Description := "Distribution of freed heap allocations by approximate size. Note that this does not include tiny objects as defined by /gc/heap/tiny/allocs:objects, only tiny blocks.",
    Kind := ValueKind.KindFloat64Histogram,
    Cumulative := true },
  { Name := "/gc/heap/frees:bytes",
    Description := "Cumulative sum of heap memory freed by the garbage collector.",
    Kind := ValueKind.KindUint64,
    Cumulative := true },
  { Name := "/gc/heap/frees:objects",
    Description := "Cumulative count of heap allocations whose storage was freed by the garbage collector. Note that this does not include tiny objects as defined by /gc/heap/tiny/allocs:objects, only tiny blocks.",
    Kind := ValueKind.KindUint64,
    Cumulative := true },
  { Name := "/gc/heap/goal:bytes",
    Description := "Heap size target for the end of the GC cycle.",
    Kind := ValueKind.KindUint64 },
  { Name := "/gc/heap/objects:objects",
    Description := "Number of objects, live or unswept, occupying heap memory.",
    Kind := ValueKind.KindUint64 },
  { Name := "/gc/heap/tiny/allocs:objects",
    Description := "Count of small allocations that are packed together into blocks. These allocations are counted separately from other allocations because each individual allocation is not tracked by the runtime, only their block. Each block is already accounted for in allocs-by-size and frees-by-size.",
    Kind := ValueKind.KindUint64,
    Cumulative := true },
  { Name := "/gc/pauses:seconds",
    Description := "Distribution individual GC-related stop-the-world pause latencies.",
    Kind := ValueKind.KindFloat64Histogram,
    Cumulative := true },
  { Name := "/gc/stack/starting-size:bytes",
    Description := "The stack size of new goroutines.",
    Kind := ValueKind.KindUint64,
    Cumulative := false },
  { Name := "/memory/classes/heap/free:bytes",
    Description := "Memory that is completely free and eligible to be returned to the underlying system, but has not been. This metric is the runtime\x27s estimate of free address space that is backed by physical memory.",
    Kind := ValueKind.KindUint64 },
  { Name := "/memory/classes/heap/objects:bytes",
    Description := "Memory occupied by live objects and dead objects that have not yet been marked free by the garbage collector.",
    Kind := ValueKind.KindUint64 },
  { Name := "/memory/classes/heap/released:bytes",
    Description := "Memory that is completely free and has been returned to the underlying system. This metric is the runtime\x27s estimate of free address space that is still mapped into the process, but is not backed by physical memory.",
    Kind := ValueKind.KindUint64 },
  { Name := "/memory/classes/heap/stacks:bytes",
    Description := "Memory allocated from the heap that is reserved for stack space, whether or not it is currently in-use.",
    Kind := ValueKind.KindUint64 },
  { Name := "/memory/classes/heap/unused:bytes",
    Description := "Memory that is reserved for heap objects but is not currently used to hold heap objects.",
    Kind := ValueKind.KindUint64 },
  { Name := "/memory/classes/metadata/mcache/free:bytes",
    Description := "Memory that is reserved for runtime mcache structures, but not in-use.",
    Kind := ValueKind.KindUint64 },
  { Name := "/memory/classes/metadata/mcache/inuse:bytes",
    Description := "Memory that is occupied by runtime mcache structures that are currently being used.",
    Kind := ValueKind.KindUint64 },
  { Name := "/memory/classes/metadata/mspan/free:bytes",
    Description := "Memory that is reserved for runtime mspan structures, but not in-use.",
    Kind := ValueKind.KindUint64 },
  { Name := "/memory/classes/metadata/mspan/inuse:bytes",
    Description := "Memory that is occupied by runtime mspan structures that are currently being used.",
    Kind := ValueKind.KindUint64 },
  { Name := "/memory/classes/metadata/other:bytes",
    Description := "Memory that is reserved for or used to hold runtime metadata.",
    Kind := ValueKind.KindUint64 },
  { Name := "/memory/classes/os-stacks:bytes",
    Description := "Stack memory allocated by the underlying operating system.",
    Kind := ValueKind.KindUint64 },
  { Name := "/memory/classes/other:bytes",
    Description := "Memory used by execution trace buffers, structures for debugging the runtime, finalizer and profiler specials, and more.",
    Kind := ValueKind.KindUint64 },
  { Name := "/memory/classes/profiling/buckets:bytes",
    Description := "Memory that is used by the stack trace hash map used for profiling.",
    Kind := ValueKind.KindUint64 },
  { Name := "/memory/classes/total:bytes",
    Description := "All memory mapped by the Go runtime into the current process as read-write. Note that this does not include memory mapped by code called via cgo or via the syscall package. Sum of all metrics in /memory/classes.",
    Kind := ValueKind.KindUint64 },
  { Name := "/sched/goroutines:goroutines",
    Description := "Count of live goroutines.",
    Kind := ValueKind.KindUint64 },
  { Name := "/sched/latencies:seconds",
    Description := "Distribution of the time goroutines have spent in the scheduler in a runnable state before actually running.",
    Kind := ValueKind.KindFloat64Histogram }
]

/-! ### Go slice semantics for the accessor

A Go slice value is a header referring to a backing array.  `Mem` is the
store of backing arrays; a `SliceH` is the index of a backing array (all
slices here cover a whole array, so offset and length are left implicit).
The package variable `allDesc` refers to the single backing array created at
initialization. -/

structure Mem where
  arrays : List (List Description)

/-- A slice header: the store index of the backing array it refers to. -/
abbrev SliceH := Nat

/-- Store state after package initialization: one backing array, holding the
catalog, referred to by the package variable `allDesc`. -/
def mkInit : Mem := ⟨[allDesc]⟩

/-- The slice header held by the package variable `allDesc`. -/
def allDescRef : SliceH := 0

/-- `func All() []Description { return allDesc }`: takes no input, performs
no write and no allocation, and returns the package-level slice header
itself — the caller's slice shares the registry's backing array. -/
def All (m : Mem) : SliceH × Mem := (allDescRef, m)

/-- Reading the whole contents of a slice out of the store. -/
def sliceRead (m : Mem) (s : SliceH) : List Description := m.arrays.getD s []

/-- A Go element assignment `s[i] = v` through a slice: updates the backing
array the header refers to. -/
def sliceWrite (m : Mem) (s : SliceH) (i : Nat) (v : Description) : Mem :=
  ⟨m.arrays.set s ((m.arrays.getD s []).set i v)⟩

/-! ### Naming grammar of §4.1

Executable form of the regular expression documented on `Description.Name`:
`^(?P<name>/[^:]+):(?P<unit>[^:*/]+(?:[*/][^:*/]+)*)$`. -/

def isUnitDelim (c : Char) : Bool := c == '*' || c == '/'

/-- Splitting a unit string at `*` and `/` delimiters, keeping empty terms so
that ill-formed units (leading, trailing or doubled delimiters) are caught. -/
def splitUnits : List Char → List Char → List (List Char)
  | [], acc => [acc.reverse]
  | c :: rest, acc =>
    if isUnitDelim c then acc.reverse :: splitUnits rest []
    else splitUnits rest (c :: acc)

def validUnitTerm (t : List Char) : Bool :=
  !t.isEmpty && t.all (fun c => c != ':' && c != '*' && c != '/')

def validUnit (cs : List Char) : Bool := (splitUnits cs []).all validUnitTerm

/-- The part of a name before its first `:`. -/
def pathPart (s : String) : String := ⟨s.toList.takeWhile (fun c => c != ':')⟩

/-- The part of a name after its first `:`. -/
def unitPart (s : String) : String :=
  ⟨(s.toList.dropWhile (fun c => c != ':')).drop 1⟩

/-- A name matches the grammar: exactly one `:`; the part before it starts
with `/` and is non-empty after the `/`; the part after it is one or more
non-empty unit terms joined by `*` or `/`, each free of `:`, `*`, `/`. -/
def validName (s : String) : Bool :=
  let cs := s.toList
  let path := cs.takeWhile (fun c => c != ':')
  cs.count ':' == 1 &&
  path.head? == some '/' &&
  decide (2 ≤ path.length) &&
  validUnit (unitPart s).toList

/-! ### Auxiliary string predicates used by the catalog properties -/

def strEndsWith (s suf : String) : Bool := suf.toList.isSuffixOf s.toList

def strStartsWith (s pre : String) : Bool := pre.toList.isPrefixOf s.toList

def endsWithTerminalPunct (s : String) : Bool :=
  match s.toList.getLast? with
  | some c => c == '.' || c == '!' || c == '?'
  | none => false

/-- Byte-wise strict lexicographic order; all catalog names are ASCII, so
comparing Unicode codepoints coincides with comparing UTF-8 bytes. -/
def lexLt : List Char → List Char → Bool
  | _, [] => false
  | [], _ :: _ => true
  | a :: as, b :: bs =>
    if a.toNat < b.toNat then true
    else if a.toNat == b.toNat then lexLt as bs
    else false

def nameLt (a b : String) : Bool := lexLt a.toList b.toList

/-- Executable check that each adjacent pair of entries is strictly
name-ascending. -/
def chainSorted : List Description → Bool
  | [] => true
  | [_] => true
  | a :: b :: rest => nameLt a.Name b.Name && chainSorted (b :: rest)

theorem chainSorted_chain' (l : List Description) (h : chainSorted l = true) :
    List.Chain' (fun a b => nameLt a.Name b.Name = true) l := by
  induction l with
  | nil => exact List.chain'_nil
  | cons a t ih =>
    cases t with
    | nil => exact List.chain'_singleton a
    | cons b r =>
      rw [chainSorted, Bool.and_eq_true] at h
      exact List.chain'_cons.mpr ⟨h.1, ih h.2⟩

/-- The catalog entries whose kind is the histogram (distribution) variant. -/
def histDescs : List Description :=
  allDesc.filter (fun d => d.Kind == ValueKind.KindFloat64Histogram)

/-- A descriptor value distinct from every catalog entry, used to exercise a
caller-side write through the slice returned by `All`. -/
def overwriteDesc : Description :=
  { Name := "/overwritten:none", Description := "Overwritten.",
    Kind := ValueKind.KindUint64, Cumulative := false }

/-! ### Claims -/

/-- C1 counterexample: the claim fails at the concrete input `i = 0`,
`v = overwriteDesc`.  Writing `overwriteDesc` at index 0 through the slice
returned by the first call to `All()` changes what the second call to
`All()` yields: the second read is not the original catalog, because `All`
returns the registry's internal slice header without copying. -/
theorem All_defensive_copy_counterexample :
    sliceRead (All (sliceWrite (All mkInit).2 (All mkInit).1 0 overwriteDesc)).2
        (All (sliceWrite (All mkInit).2 (All mkInit).1 0 overwriteDesc)).1
      ≠ allDesc := by
  decide

/-- C1 (amended): `All()` returns the registry's internal slice itself, not a
defensive copy: a write of `v` at index `i` through the slice returned by the
first call is visible through a subsequent call, whose contents equal the
original catalog with entry `i` replaced by `v`. -/
theorem All_aliases_registry (i : Nat) (v : Description) :
    sliceRead (All (sliceWrite (All mkInit).2 (All mkInit).1 i v)).2
        (All (sliceWrite (All mkInit).2 (All mkInit).1 i v)).1
      = allDesc.set i v := by
  rfl

/-- Witness for C1 (amended) at `i = 0`, `v = overwriteDesc`. -/
theorem All_aliases_registry_witness :
    sliceRead (All (sliceWrite (All mkInit).2 (All mkInit).1 0 overwriteDesc)).2
        (All (sliceWrite (All mkInit).2 (All mkInit).1 0 overwriteDesc)).1
      = allDesc.set 0 overwriteDesc :=
  All_aliases_registry 0 overwriteDesc

/-- C2: every catalog name matches the §4.1 grammar (exactly one `:`, path
starting with `/` and non-empty after it, unit a sequence of non-empty terms
joined by `*` or `/` with no `:`, `*`, `/` inside a term); and splitting
"/gc/heap/goal:bytes" at its single `:` yields path "/gc/heap/goal" and unit
"bytes", and "/gc/heap/allocs-by-size:bytes" splits likewise. -/
theorem allDesc_names_match_grammar :
    allDesc.all (fun d => validName d.Name) = true ∧
    pathPart "/gc/heap/goal:bytes" = "/gc/heap/goal" ∧
    unitPart "/gc/heap/goal:bytes" = "bytes" ∧
    "/gc/heap/goal:bytes".toList.count ':' = 1 ∧
    pathPart "/gc/heap/allocs-by-size:bytes" = "/gc/heap/allocs-by-size" ∧
    unitPart "/gc/heap/allocs-by-size:bytes" = "bytes" ∧
    "/gc/heap/allocs-by-size:bytes".toList.count ':' = 1 := by
  refine ⟨by decide, by decide, by decide, by decide, by decide, by decide, by decide⟩

/-- C3: names are globally unique across the catalog — the list of names of
the sequence returned by `All()` has no duplicate. -/
theorem allDesc_names_unique : (allDesc.map (fun d => d.Name)).Nodup := by
  decide

/-- C4: filtering the catalog for the histogram kind yields exactly the
distribution-typed metrics; in particular "/gc/heap/allocs-by-size:bytes" and
"/gc/pauses:seconds" appear in the filtered result and "/gc/heap/goal:bytes"
does not. -/
theorem histogram_filter_exact :
    histDescs.map (fun d => d.Name) =
      ["/gc/heap/allocs-by-size:bytes", "/gc/heap/frees-by-size:bytes",
       "/gc/pauses:seconds", "/sched/latencies:seconds"] ∧
    "/gc/heap/allocs-by-size:bytes" ∈ histDescs.map (fun d => d.Name) ∧
    "/gc/pauses:seconds" ∈ histDescs.map (fun d => d.Name) ∧
    "/gc/heap/goal:bytes" ∉ histDescs.map (fun d => d.Name) := by
  refine ⟨by decide, by decide, by decide, by decide⟩

/-- C5: every catalog entry whose name ends in "-by-size:bytes" is
cumulative. -/
theorem by_size_entries_cumulative :
    allDesc.all
      (fun d => !(strEndsWith d.Name "-by-size:bytes") || d.Cumulative) = true := by
  decide

/-- C6: "/memory/classes/total:bytes" is present with `Cumulative = false`,
and the set of "/memory/classes/" entries other than the total is
non-empty. -/
theorem memory_classes_total_and_parts :
    (∃ d ∈ allDesc, d.Name = "/memory/classes/total:bytes" ∧ d.Cumulative = false) ∧
    (allDesc.filter (fun d =>
        strStartsWith d.Name "/memory/classes/" &&
        d.Name != "/memory/classes/total:bytes")).length ≠ 0 := by
  refine ⟨by decide, by decide⟩

/-- C7: `All()` is deterministic, side-effect-free and total: it takes no
input besides the store, leaves the store unchanged, and two successive calls
return slice headers with equal contents of equal length, element by element
in the same order. -/
theorem All_deterministic_stable (m : Mem) :
    (All m).2 = m ∧
    (All ((All m).2)).1 = (All m).1 ∧
    sliceRead (All ((All m).2)).2 (All ((All m).2)).1 =
      sliceRead (All m).2 (All m).1 ∧
    (sliceRead (All ((All m).2)).2 (All ((All m).2)).1).length =
      (sliceRead (All m).2 (All m).1).length :=
  ⟨rfl, rfl, rfl, rfl⟩

/-- Witness for C7 at the initialized store. -/
theorem All_deterministic_stable_witness :
    (All mkInit).2 = mkInit ∧
    (All ((All mkInit).2)).1 = (All mkInit).1 ∧
    sliceRead (All ((All mkInit).2)).2 (All ((All mkInit).2)).1 =
      sliceRead (All mkInit).2 (All mkInit).1 ∧
    (sliceRead (All ((All mkInit).2)).2 (All ((All mkInit).2)).1).length =
      (sliceRead (All mkInit).2 (All mkInit).1).length :=
  All_deterministic_stable mkInit

/-- C8: every catalog entry's description is non-empty and ends with terminal
punctuation. -/
theorem descriptions_nonempty_punctuated :
    allDesc.all
      (fun d => !d.Description.toList.isEmpty &&
                endsWithTerminalPunct d.Description) = true := by
  decide

/-- C9: the catalog is strictly sorted in ascending byte-wise lexicographic
order by name: each adjacent pair of entries has the earlier name strictly
less than the later one. -/
theorem allDesc_strictly_sorted :
    List.Chain' (fun a b => nameLt a.Name b.Name = true) allDesc :=
  chainSorted_chain' allDesc (by decide)

/-- C10: not every histogram-typed metric is cumulative — the catalog
contains "/sched/latencies:seconds" with the histogram kind and
`Cumulative = false`. -/
theorem sched_latencies_histogram_not_cumulative :
    ∃ d ∈ allDesc, d.Name = "/sched/latencies:seconds" ∧
      d.Kind = ValueKind.KindFloat64Histogram ∧ d.Cumulative = false := by
  decide

end Metrics
